import Mathlib

/-!
Verification development for the s5.js client library (src/index.js).

The library is a thin ActiveRecord-style mapper from method calls to single
HTTP round-trips.  We shallowly embed the JavaScript value universe, the
request-building logic and every operation the claims mention, translating
directly from the source.  The remote server and HTTP transport are modelled
as an arbitrary function from requests to outcomes, so theorems quantify over
all possible server behaviours.
-/

/-- The universe of JavaScript/JSON values manipulated by the library.
JavaScript arrays are first-class here; plain objects are association lists
of own enumerable string-keyed properties (the data handled by the library is
JSON-derived, so prototype-chain lookups are not modelled).  `jsUndefined` is the
JavaScript value `undefined`, used both for absent properties and for the
result of failed lookups. -/
inductive JSValue where
  | jsUndefined
  | jsNull
  | bool (b : Bool)
  | num (n : Int)
  | str (s : String)
  | arr (elems : List JSValue)
  | obj (fields : List (String × JSValue))

/-- JavaScript truthiness: `undefined`, `null`, `false`, `0` and `""` are
falsy; every object (and array) is truthy. -/
def jsTruthy : JSValue → Bool
  | .jsUndefined => false
  | .jsNull => false
  | .bool b => b
  | .num n => n != 0
  | .str s => s != ""
  | .arr _ => true
  | .obj _ => true

/-- A value is nullish (`undefined` or `null`): plain property access on it
throws a TypeError, and optional chaining short-circuits on it. -/
def jsNullish : JSValue → Bool
  | .jsUndefined => true
  | .jsNull => true
  | _ => false

/-- Canonical array-index interpretation of a property key, as JavaScript
uses for arrays and strings: the key must be the canonical decimal numeral
of the index (so "01" is not an index). -/
def canonIndex (k : String) : Option Nat :=
  match k.toNat? with
  | some i => if toString i = k then some i else none
  | none => none

/-- Property read `base?.[k]` (equally `base.k` after a nullish guard):
`undefined` on nullish bases (optional chaining), association-list lookup on
objects, canonical-index / length lookup on arrays and strings, and
`undefined` on other primitives (their boxed wrappers have no own
properties). -/
def jsIndex : JSValue → String → JSValue
  | .obj fs, k => ((fs.find? (fun p => p.1 == k)).map Prod.snd).getD .jsUndefined
  | .arr es, k =>
      (match canonIndex k with
       | some i => es.getD i .jsUndefined
       | none => if k = "length" then .num es.length else .jsUndefined)
  | .str s, k =>
      (match canonIndex k with
       | some i =>
           (match s.data.get? i with
            | some c => .str (String.singleton c)
            | none => .jsUndefined)
       | none => if k = "length" then .num s.length else .jsUndefined)
  | _, _ => .jsUndefined

/-- Property write on an association list, as JavaScript assignment on a
plain object: an existing key keeps its position and gets the new value, a
new key is appended. -/
def objSet : List (String × JSValue) → String → JSValue → List (String × JSValue)
  | [], k, v => [(k, v)]
  | (k', v') :: rest, k, v =>
      if k' == k then (k', v) :: rest else (k', v') :: objSet rest k v

/-- Splitting a list of characters at every '.', keeping empty segments:
the behaviour of JavaScript `path.split(".")`. -/
def splitOnDot : List Char → List String
  | [] => [""]
  | c :: rest =>
      if c = '.' then "" :: splitOnDot rest
      else
        match splitOnDot rest with
        | h :: t => (String.singleton c ++ h) :: t
        | [] => [String.singleton c]

/-- Model of `path.split(".")` on a string. -/
def splitPath (s : String) : List String := splitOnDot s.data

/-- `getNestedValue(obj, path)` (src/index.js line 358):
`path.split(".").reduce((current, key) => current?.[key], obj)`. -/
def getNestedValue (o : JSValue) (path : String) : JSValue :=
  (splitPath path).foldl jsIndex o

/-- The recursive core of `setNestedValue`: walk the intermediate keys,
creating `{}` for a key not already present (`if (!(key in current))
current[key] = {}`), then assign the final key.  `none` models a thrown
TypeError: the `in` operator and property assignment throw on primitives and
nullish values (the file is an ES module, hence strict mode).  Writing past
the end of an array (which JavaScript would allow, creating holes or
non-index properties) is outside this model and also mapped to `none`; the
claims only concern mapping intermediates. -/
def setNested : JSValue → List String → String → JSValue → Option JSValue
  | .obj fs, [], lastKey, v => some (.obj (objSet fs lastKey v))
  | .obj fs, k :: ks, lastKey, v =>
      let cur := if fs.any (fun p => p.1 == k) then jsIndex (.obj fs) k else .obj []
      (setNested cur ks lastKey v).map (fun c2 => .obj (objSet fs k c2))
  | .arr es, [], lastKey, v =>
      (canonIndex lastKey).bind (fun i =>
        if i < es.length then some (.arr (es.set i v)) else none)
  | .arr es, k :: ks, lastKey, v =>
      (canonIndex k).bind (fun i =>
        match es.get? i with
        | some e => (setNested e ks lastKey v).map (fun c2 => .arr (es.set i c2))
        | none => none)
  | _, _, _, _ => none

/-- `setNestedValue(obj, path, value)` (src/index.js line 366): split the
path, pop the last key, walk/create the intermediate levels, assign. -/
def setNestedValue (o : JSValue) (path : String) (v : JSValue) : Option JSValue :=
  setNested o (splitPath path).dropLast ((splitPath path).getLastD "") v

/-- Hexadecimal digit characters, used for JSON control-character escapes. -/
def hexDigitChar (n : Nat) : Char := "0123456789abcdef".data.getD n '0'

/-- JSON string escaping of one character, as `JSON.stringify` performs it:
quote and backslash are escaped, the common control characters get their
short escapes, other control characters get a `\u00xx` escape. -/
def jsonEscapeChar (c : Char) : String :=
  if c = '"' then "\\\""
  else if c = '\\' then "\\\\"
  else if c = '\n' then "\\n"
  else if c = '\t' then "\\t"
  else if c = '\r' then "\\r"
  else if c = '\x08' then "\\b"
  else if c = '\x0c' then "\\f"
  else if c.toNat < 32 then
    "\\u00" ++ String.singleton (hexDigitChar (c.toNat / 16))
            ++ String.singleton (hexDigitChar (c.toNat % 16))
  else String.singleton c

/-- A JSON string literal for `s`. -/
def jsonQuote (s : String) : String :=
  "\"" ++ String.join (s.data.map jsonEscapeChar) ++ "\""

mutual
/-- Model of `JSON.stringify` on the values the library serializes (the
`filter` option of `where`).  `undefined` only matters inside composites:
as an array element it serializes as `null`, as an object field value the
field is omitted. -/
def jsonStringify : JSValue → String
  | .jsUndefined => "null"
  | .jsNull => "null"
  | .bool b => cond b "true" "false"
  | .num n => toString n
  | .str s => jsonQuote s
  | .arr es => "[" ++ String.intercalate "," (jsonElems es) ++ "]"
  | .obj fs => "\x7b" ++ String.intercalate "," (jsonFields fs) ++ "\x7d"

/-- Serialized forms of the elements of a JSON array. -/
def jsonElems : List JSValue → List String
  | [] => []
  | v :: rest => jsonStringify v :: jsonElems rest

/-- Serialized `"key":value` members of a JSON object; fields whose value is
`undefined` are omitted, as `JSON.stringify` omits them. -/
def jsonFields : List (String × JSValue) → List String
  | [] => []
  | (k, v) :: rest =>
      match v with
      | .jsUndefined => jsonFields rest
      | v' => (jsonQuote k ++ ":" ++ jsonStringify v') :: jsonFields rest
end

mutual
/-- JavaScript string conversion as performed by template literals
(`${x}`): strings unchanged, numbers/booleans via their decimal/keyword
form, `null`/`undefined` by name, arrays by comma-joining their elements
(with nullish elements rendered empty, as `Array.prototype.join` does) and
plain objects as "[object Object]". -/
def jsTemplateStr : JSValue → String
  | .jsUndefined => "undefined"
  | .jsNull => "null"
  | .bool b => cond b "true" "false"
  | .num n => toString n
  | .str s => s
  | .arr es => String.intercalate "," (jsArrJoinParts es)
  | .obj _ => "[object Object]"

/-- The parts of `Array.prototype.join(",")`: nullish elements become the
empty string. -/
def jsArrJoinParts : List JSValue → List String
  | [] => []
  | .jsUndefined :: rest => "" :: jsArrJoinParts rest
  | .jsNull :: rest => "" :: jsArrJoinParts rest
  | v :: rest => jsTemplateStr v :: jsArrJoinParts rest
end

/-- HTTP methods used by the library. -/
inductive HttpMethod where
  | GET
  | POST
  | PUT
  | PATCH
  | DELETE
deriving DecidableEq

/-- One HTTP request as the library builds it: method, path (relative to the
client's base URL), query parameters (the decoded name/value pairs held by
the `URLSearchParams` object `where` assembles), the headers installed on the
axios instance, and an optional JSON body. -/
structure HttpRequest where
  method : HttpMethod
  path : String
  params : List (String × String)
  headers : List (String × String)
  body : Option JSValue

/-- The axios rejection value observed in a `catch` block: `response` is the
JavaScript value `error.response` (`undefined` for transport-level failures,
otherwise an object carrying `status` and the parsed error body `data`), and
`message` is `error.message`, the transport error text. -/
structure JsError where
  response : JSValue
  message : String

/-- Outcome of one HTTP round-trip: `ok body` models axios fulfilling with a
2xx response whose parsed JSON body is `body` (`response.data`); `err e`
models axios rejecting (non-2xx status or transport failure). -/
inductive HttpResult where
  | ok (body : JSValue)
  | err (e : JsError)

/-- The environment: an arbitrary server/transport behaviour, mapping each
request to its outcome.  Theorems quantify over it. -/
def Server : Type := HttpRequest → HttpResult

/-- The configuration object passed to the `S5Client` constructor; `none`
models an omitted (`undefined`) field. -/
structure S5Config where
  baseURL : Option String
  apiKey : Option String
  collection : Option String

/-- A successfully constructed client context: the resolved base URL, the
credentials, the bound collection name, and the default headers installed by
`axios.create`. -/
structure S5Client where
  baseURL : String
  apiKey : String
  collection : String
  headers : List (String × String)

/-- The default base URL (src/index.js line 8). -/
def defaultBaseURL : String := "https://s5.host/api/v1"

/-- `config.baseURL || <default>`: an omitted or empty (falsy) base URL
falls back to the default. -/
def resolveBaseURL (b : Option String) : String :=
  match b with
  | some s => if s = "" then defaultBaseURL else s
  | none => defaultBaseURL

/-- `S5Client` constructor (src/index.js lines 7-27): `config.baseURL ||
default` (so an empty string also falls back), then the `apiKey` and
`collection` presence checks in source order, then `axios.create` with the
bearer and content-type headers.  The `Except.error` carries the thrown
error's message. -/
def mkS5Client (config : S5Config) : Except String S5Client :=
  let baseURL := resolveBaseURL config.baseURL
  match config.apiKey with
  | none => .error "API key is required"
  | some k =>
      if k = "" then .error "API key is required"
      else
        match config.collection with
        | none => .error "Collection name is required"
        | some c =>
            if c = "" then .error "Collection name is required"
            else
              .ok { baseURL := baseURL, apiKey := k, collection := c,
                    headers := [("Authorization", "Bearer " ++ k),
                                ("Content-Type", "application/json")] }

/-- A value that is either absent or a single string or an array of strings:
the shapes the `q` and `order` options take in the source, which normalizes
with `Array.isArray(x) ? x : [x]`. -/
inductive JsStrings where
  | absent
  | one (s : String)
  | many (l : List String)

/-- Truthiness of a `q`/`order` option value: absent is falsy, a string is
truthy when non-empty, an array is always truthy (even empty). -/
def jsStringsTruthy : JsStrings → Bool
  | .absent => false
  | .one s => s != ""
  | .many _ => true

/-- The `Array.isArray(x) ? x : [x]` normalization. -/
def jsStringsToList : JsStrings → List String
  | .absent => []
  | .one s => [s]
  | .many l => l

/-- The options object accepted by `where` (and `first`/`count`). -/
structure WhereOptions where
  q : JsStrings
  order : JsStrings
  limit : Option Int
  page : Option Int
  filter : JSValue

/-- Query-parameter assembly of `where` (src/index.js lines 66-89), at the
level of the name/value pairs appended to the `URLSearchParams`: repeated
`q` and `order` parameters in list order, `limit`/`page` appended only when
truthy (a supplied 0 is falsy and skipped), and a truthy `filter` serialized
by `JSON.stringify` into a single parameter. -/
def whereParams (options : WhereOptions) : List (String × String) :=
  (if jsStringsTruthy options.q then
     (jsStringsToList options.q).map (fun s => ("q", s)) else [])
  ++ (if jsStringsTruthy options.order then
        (jsStringsToList options.order).map (fun s => ("order", s)) else [])
  ++ (match options.limit with
      | some n => if n = 0 then [] else [("limit", toString n)]
      | none => [])
  ++ (match options.page with
      | some n => if n = 0 then [] else [("page", toString n)]
      | none => [])
  ++ (if jsTruthy options.filter then
        [("filter", jsonStringify options.filter)] else [])

/-- A `Document` instance: the user payload `data`, the bound client
(`none` models an undefined client, as on the base class's statics), and the
metadata fields the constructor copies from its argument.  Fields are
JavaScript values; `jsUndefined` models an absent field. -/
structure Document where
  data : JSValue
  client : Option S5Client
  id : JSValue
  collection : JSValue
  version : JSValue
  created_at : JSValue
  updated_at : JSValue
  ttl_at : JSValue

/-- Field extraction of the `Document` constructor (src/index.js lines
34-44) on a non-null, non-defaulted argument `x`: `this.data = data.data ||
data` takes the nested `data` field when truthy and otherwise the whole
argument; the metadata fields are plain property reads. -/
def documentOfVal (x : JSValue) (client : Option S5Client) : Document :=
  { data := if jsTruthy (jsIndex x "data") then jsIndex x "data" else x,
    client := client,
    id := jsIndex x "id",
    collection := jsIndex x "collection",
    version := jsIndex x "version",
    created_at := jsIndex x "created_at",
    updated_at := jsIndex x "updated_at",
    ttl_at := jsIndex x "ttl_at" }

/-- The `Document` constructor: an omitted/`undefined` argument takes the
default parameter `{}`; `null` makes `data.data` throw a TypeError (`none`)
— the only argument value on which property access throws; every other
value goes through `documentOfVal`. -/
def documentCtor (arg : JSValue) (client : Option S5Client) : Option Document :=
  match arg with
  | .jsUndefined => some (documentOfVal (.obj []) client)
  | .jsNull => none
  | x => some (documentOfVal x client)

/-- Unwrapping `new Document(response.data.data, client)` as `find`,
`create` and `update` perform it: `response.data` is the parsed body;
reading its `data` property throws (`none`) when the body is nullish,
and the constructor call follows. -/
def mkDocFromResponse (body : JSValue) (client : Option S5Client) : Option Document :=
  if jsNullish body then none
  else documentCtor (jsIndex body "data") client

/-- The structured server message `error.response?.data?.error?.message`
extracted in every catch block. -/
def serverMsgOf (e : JsError) : JSValue :=
  jsIndex (jsIndex (jsIndex e.response "data") "error") "message"

/-- The message of the `Error` thrown by a failing operation: the label
(`"Find failed: "` etc.) followed by the structured server message when
truthy, else the transport error text (`error.message`). -/
def failMsg (label : String) (e : JsError) : String :=
  label ++ (if jsTruthy (serverMsgOf e) then jsTemplateStr (serverMsgOf e) else e.message)

/-- The strict comparison `error.response?.status === 404`: true exactly on
the number 404. -/
def isStatus404 : JSValue → Bool
  | .num n => n == 404
  | _ => false

/-- Stand-in for the message of a TypeError raised by the JavaScript engine
itself (reading a property of `undefined`, calling `.map` on a non-array);
the exact text is platform-dependent, so it is abstracted as a constant. -/
def engineTypeErrorMsg : String := "TypeError"

/-- `GET /{collection}/{id}` as built by `find` (src/index.js line 125). -/
def findRequest (c : S5Client) (id : JSValue) : HttpRequest :=
  { method := .GET, path := "/" ++ c.collection ++ "/" ++ jsTemplateStr id,
    params := [], headers := c.headers, body := none }

/-- `GET /{collection}?<params>` as built by `where` (line 92). -/
def whereRequest (c : S5Client) (options : WhereOptions) : HttpRequest :=
  { method := .GET, path := "/" ++ c.collection,
    params := whereParams options, headers := c.headers, body := none }

/-- `POST /{collection}` with `{data, ttl_at}` as built by the instance
`create` (lines 207-215). -/
def createRequest (d : Document) (c : S5Client) : HttpRequest :=
  { method := .POST, path := "/" ++ c.collection, params := [],
    headers := c.headers,
    body := some (.obj [("data", d.data), ("ttl_at", d.ttl_at)]) }

/-- `PUT /{collection}/{id}` with `{data, ttl_at}` as built by `update`
(lines 243-251). -/
def updateRequest (d : Document) (c : S5Client) : HttpRequest :=
  { method := .PUT, path := "/" ++ c.collection ++ "/" ++ jsTemplateStr d.id,
    params := [], headers := c.headers,
    body := some (.obj [("data", d.data), ("ttl_at", d.ttl_at)]) }

/-- `DELETE /{collection}/{id}` as built by `destroy` (line 301). -/
def deleteRequest (d : Document) (c : S5Client) : HttpRequest :=
  { method := .DELETE, path := "/" ++ c.collection ++ "/" ++ jsTemplateStr d.id,
    params := [], headers := c.headers, body := none }

/-- Static `Document.find(id)` (src/index.js lines 121-135).  `cls` is the
static `client` of the class the method is invoked on: `some c` on a
collection-bound subclass, `none` on the base `Document` class (where
`client.axios` throws a TypeError that the catch block converts into a
"Find failed" error, since a TypeError has no `response`).  On a rejection
whose `error.response?.status === 404` it returns `null` (`ok none`); on a
fulfilled response it unwraps `response.data.data` through the constructor. -/
def Document.find (cls : Option S5Client) (id : JSValue) (srv : Server) :
    Except String (Option Document) :=
  match cls with
  | none => .error ("Find failed: " ++ engineTypeErrorMsg)
  | some c =>
      match srv (findRequest c id) with
      | .ok body =>
          match mkDocFromResponse body (some c) with
          | some d => .ok (some d)
          | none => .error ("Find failed: " ++ engineTypeErrorMsg)
      | .err e =>
          if isStatus404 (jsIndex e.response "status") then .ok none
          else .error (failMsg "Find failed: " e)

/-- The documents/pagination pair returned by a successful `where`. -/
structure WhereResult where
  documents : List Document
  pagination : Option JSValue

/-- `new Document(doc, client)` mapped over the raw records of a list
response; `none` models the TypeError a `null` record would raise. -/
def mapDocs (es : List JSValue) (c : S5Client) : Option (List Document) :=
  match es with
  | [] => some []
  | v :: rest =>
      match documentCtor v (some c), mapDocs rest c with
      | some d, some ds => some (d :: ds)
      | _, _ => none

/-- Static `Document.where(options)` (src/index.js lines 64-114), named
`whereOp` because `where` is a Lean keyword.  Builds the query parameters,
issues the GET, unwraps `response.data.data.data` into documents
(`.map` on a non-array, or property access on a nullish level, throws a
TypeError that the catch block converts into a "Query failed" error) and
attaches `pagination` when truthy. -/
def Document.whereOp (cls : Option S5Client) (options : WhereOptions) (srv : Server) :
    Except String WhereResult :=
  match cls with
  | none => .error ("Query failed: " ++ engineTypeErrorMsg)
  | some c =>
      match srv (whereRequest c options) with
      | .ok body =>
          if jsNullish body then .error ("Query failed: " ++ engineTypeErrorMsg)
          else
            let d1 := jsIndex body "data"
            if jsNullish d1 then .error ("Query failed: " ++ engineTypeErrorMsg)
            else
              match jsIndex d1 "data" with
              | .arr es =>
                  match mapDocs es c with
                  | some docs =>
                      .ok { documents := docs,
                            pagination := if jsTruthy (jsIndex d1 "pagination")
                                          then some (jsIndex d1 "pagination") else none }
                  | none => .error ("Query failed: " ++ engineTypeErrorMsg)
              | _ => .error ("Query failed: " ++ engineTypeErrorMsg)
      | .err e => .error (failMsg "Query failed: " e)

/-- Static `Document.first(options)` (lines 142-145): `where` with `limit`
forced to 1 by the spread `{...options, limit: 1}`, then the first document
or `null`. -/
def Document.first (cls : Option S5Client) (options : WhereOptions) (srv : Server) :
    Except String (Option Document) :=
  match Document.whereOp cls { options with limit := some 1 } srv with
  | .ok results =>
      .ok (match results.documents with
           | [] => none
           | d :: _ => some d)
  | .error e => .error e

/-- Static `Document.count(options)` (lines 152-156): `where` with `limit`
forced to 1, returning the length of the returned document array. -/
def Document.count (cls : Option S5Client) (options : WhereOptions) (srv : Server) :
    Except String Nat :=
  match Document.whereOp cls { options with limit := some 1 } srv with
  | .ok results => .ok results.documents.length
  | .error e => .error e

/-- Instance `get(key)` (src/index.js line 341): dot-path read over `data`. -/
def Document.get (d : Document) (key : String) : JSValue :=
  getNestedValue d.data key

/-- Instance `set(key, value)` (line 350): dot-path write over `data`,
returning the document with the mutated `data` (`none` models a TypeError
thrown by `setNestedValue`). -/
def Document.set (d : Document) (key : String) (v : JSValue) : Option Document :=
  (setNestedValue d.data key v).map (fun nd => { d with data := nd })

/-- The own enumerable entries contributed by a value under object spread
(`{...x}`): an object's fields, an array's (or string's) index properties,
nothing for other primitives. -/
def spreadEntries : JSValue → List (String × JSValue)
  | .obj fs => fs
  | .arr es => (List.range es.length).zip es |>.map (fun p => (toString p.1, p.2))
  | .str s => (List.range s.length).zip (s.data.map (fun c => JSValue.str (String.singleton c)))
      |>.map (fun p => (toString p.1, p.2))
  | _ => []

/-- The object literal `{...a, ...b}` used by `update(data)` for the shallow
top-level merge: entries of `a` then of `b`, later assignments overriding
earlier ones in place. -/
def shallowMerge (a b : JSValue) : JSValue :=
  .obj ((spreadEntries a ++ spreadEntries b).foldl (fun acc p => objSet acc p.1 p.2) [])

/-- Instance `update(data = null)` (src/index.js lines 235-264): when the
argument is truthy it is shallow-merged into `this.data` first; then a PUT
of `{data, ttl_at}`; on success `Object.assign(this, newDoc)` overwrites
every field with the freshly constructed document, which is also the return
value.  A missing client, a nullish body or a `null` record inside it raise
TypeErrors that the catch block converts into "Update failed" errors. -/
def Document.update (d : Document) (arg : JSValue) (srv : Server) :
    Except String Document :=
  let d1 := if jsTruthy arg then { d with data := shallowMerge d.data arg } else d
  match d1.client with
  | none => .error ("Update failed: " ++ engineTypeErrorMsg)
  | some c =>
      match srv (updateRequest d1 c) with
      | .ok body =>
          match mkDocFromResponse body (some c) with
          | some nd => .ok nd
          | none => .error ("Update failed: " ++ engineTypeErrorMsg)
      | .err e => .error (failMsg "Update failed: " e)

/-- Instance `create()` (src/index.js lines 203-228): a POST of
`{data, ttl_at}`; on success `Object.assign(this, newDoc)` overwrites every
field with the constructed document, which is returned. -/
def Document.create (d : Document) (srv : Server) : Except String Document :=
  match d.client with
  | none => .error ("Create failed: " ++ engineTypeErrorMsg)
  | some c =>
      match srv (createRequest d c) with
      | .ok body =>
          match mkDocFromResponse body (some c) with
          | some nd => .ok nd
          | none => .error ("Create failed: " ++ engineTypeErrorMsg)
      | .err e => .error (failMsg "Create failed: " e)

/-- Instance `save()` (src/index.js lines 191-197): `if (this.id)` — a
truthiness test — routes to `update()` (called with its `null` default
argument) or `create()`. -/
def Document.save (d : Document) (srv : Server) : Except String Document :=
  if jsTruthy d.id then Document.update d JSValue.jsNull srv
  else Document.create d srv

/-- Instance `destroy()` (src/index.js lines 297-310).  The first component
is the returned value / thrown error; the second is the receiver's state
after the call — the method body contains no assignment to `this`, so it is
`d` in every branch. -/
def Document.destroy (d : Document) (srv : Server) :
    Except String Bool × Document :=
  match d.client with
  | none => (.error ("Delete failed: " ++ engineTypeErrorMsg), d)
  | some c =>
      match srv (deleteRequest d c) with
      | .ok _ => (.ok true, d)
      | .err e => (.error (failMsg "Delete failed: " e), d)

/-- Instance `reload()` (src/index.js lines 316-326): a falsy `id` raises
the local precondition error; otherwise the source calls `Document.find`
on the base class — whose static `client` is undefined — so the `cls`
argument is `none`.  A fetched document replaces every field via
`Object.assign`; a `null` result leaves the receiver unchanged. -/
def Document.reload (d : Document) (srv : Server) : Except String Document :=
  if jsTruthy d.id then
    match Document.find none d.id srv with
    | .ok (some fresh) => .ok fresh
    | .ok none => .ok d
    | .error e => .error e
  else .error "Cannot reload document without ID"

/-- A concrete bound client used by witnesses. -/
def clientFx : S5Client :=
  { baseURL := defaultBaseURL, apiKey := "k", collection := "users",
    headers := [("Authorization", "Bearer k"), ("Content-Type", "application/json")] }

/-- A concrete 404 rejection. -/
def err404Fx : JsError :=
  { response := JSValue.obj [("status", .num 404)],
    message := "Request failed with status code 404" }

/-- A server that rejects every request with a 404. -/
def srv404Fx : Server := fun _ => .err err404Fx

/-- A concrete server record, shaped as the API returns records. -/
def recordFx : JSValue :=
  .obj [("id", .str "1"), ("collection", .str "users"),
        ("data", .obj [("name", .str "Ada")]), ("version", .num 1)]

/-- A server that fulfills every request with the body `{data: record}`. -/
def srvRecordFx : Server := fun _ => .ok (.obj [("data", recordFx)])

/-- A server that fulfills every request with the list body
`{data: {data: [record]}}`. -/
def srvListFx : Server := fun _ => .ok (.obj [("data", .obj [("data", .arr [recordFx])])])

/-- A server that fulfills every request with an empty-object body. -/
def srvEmptyFx : Server := fun _ => .ok (.obj [])

/-- An unpersisted document bound to `clientFx`. -/
def newDocFx : Document :=
  { data := .obj [("name", .str "Ada")], client := some clientFx,
    id := .jsUndefined, collection := .jsUndefined, version := .jsUndefined,
    created_at := .jsUndefined, updated_at := .jsUndefined, ttl_at := .jsUndefined }

/-- A persisted document bound to `clientFx`. -/
def persistedDocFx : Document := { newDocFx with id := .str "abc" }

/-- A document whose `data` holds a primitive under key "a". -/
def primDocFx : Document := { newDocFx with data := .obj [("a", .num 5)] }

/-- The result of `newDocFx.set "a.b" (.num 7)`. -/
def setDocFx : Document :=
  { newDocFx with data := .obj [("name", .str "Ada"), ("a", .obj [("b", .num 7)])] }

/-- Options with every field absent. -/
def emptyOptsFx : WhereOptions :=
  { q := .absent, order := .absent, limit := none, page := none, filter := .jsUndefined }

/-- The `where` result produced by `srvListFx`. -/
def whereResFx : WhereResult :=
  { documents := [documentOfVal recordFx (some clientFx)], pagination := none }

theorem jsIndex_objSet (fs : List (String × JSValue)) (k : String) (v : JSValue) :
    jsIndex (.obj (objSet fs k v)) k = v := by
  induction fs with
  | nil => simp [objSet, jsIndex]
  | cons p rest ih =>
      obtain ⟨k', v'⟩ := p
      by_cases h : k' = k
      · simp [objSet, h, jsIndex]
      · simpa [objSet, h, jsIndex, List.find?] using ih

theorem list_getD_set_self (es : List JSValue) (i : Nat) (v : JSValue)
    (h : i < es.length) : (es.set i v)[i]?.getD JSValue.jsUndefined = v := by
  rw [List.getElem?_set_eq_of_lt v h]
  rfl

theorem setNested_roundtrip :
    ∀ (keys : List String) (base : JSValue) (lastKey : String) (v base' : JSValue),
      setNested base keys lastKey v = some base' →
      (keys ++ [lastKey]).foldl jsIndex base' = v := by
  intro keys
  induction keys with
  | nil =>
      intro base lastKey v base' h
      cases base with
      | obj fs =>
          simp only [setNested, Option.some.injEq] at h
          subst h
          simpa using jsIndex_objSet fs lastKey v
      | arr es =>
          simp only [setNested] at h
          cases hc : canonIndex lastKey with
          | none => rw [hc] at h; simp at h
          | some i =>
              rw [hc] at h
              simp only [Option.some_bind] at h
              by_cases hi : i < es.length
              · rw [if_pos hi] at h
                cases h
                simp [jsIndex, hc, list_getD_set_self es i v hi]
              · rw [if_neg hi] at h; cases h
      | jsUndefined => simp [setNested] at h
      | jsNull => simp [setNested] at h
      | bool b => simp [setNested] at h
      | num n => simp [setNested] at h
      | str s => simp [setNested] at h
  | cons k ks ih =>
      intro base lastKey v base' h
      cases base with
      | obj fs =>
          simp only [setNested, Option.map_eq_some'] at h
          obtain ⟨c2, hc2, rfl⟩ := h
          simp only [List.cons_append, List.foldl_cons]
          rw [jsIndex_objSet fs k c2]
          exact ih _ lastKey v c2 hc2
      | arr es =>
          simp only [setNested] at h
          cases hc : canonIndex k with
          | none => rw [hc] at h; simp at h
          | some i =>
              rw [hc] at h
              simp only [Option.some_bind] at h
              cases he : es.get? i with
              | none => rw [he] at h; simp at h
              | some e =>
                  rw [he] at h
                  simp only [Option.map_eq_some'] at h
                  obtain ⟨c2, hc2, rfl⟩ := h
                  have hi : i < es.length := List.get?_eq_some.mp he |>.1
                  simp only [List.cons_append, List.foldl_cons]
                  rw [show jsIndex (.arr (es.set i c2)) k = c2 by
                        simp [jsIndex, hc, list_getD_set_self es i c2 hi]]
                  exact ih _ lastKey v c2 hc2
      | jsUndefined => simp [setNested] at h
      | jsNull => simp [setNested] at h
      | bool b => simp [setNested] at h
      | num n => simp [setNested] at h
      | str s => simp [setNested] at h

theorem splitOnDot_ne_nil (cs : List Char) : splitOnDot cs ≠ [] := by
  cases cs with
  | nil => simp [splitOnDot]
  | cons c rest =>
      simp only [splitOnDot]
      by_cases h : c = '.'
      · simp [h]
      · rw [if_neg h]
        cases splitOnDot rest <;> simp

theorem splitPath_eq_dropLast_append (p : String) :
    splitPath p = (splitPath p).dropLast ++ [(splitPath p).getLastD ""] := by
  have hne : splitPath p ≠ [] := splitOnDot_ne_nil p.data
  rw [List.getLastD_eq_getLast?, List.getLast?_eq_getLast_of_ne_nil hne]
  exact (List.dropLast_append_getLast hne).symm

/-- Claim C2 (amended): whenever `set(p, v)` completes without a TypeError —
that is, every level of the data that an intermediate key of `p` resolves to
is a mapping (missing levels are created) — a subsequent `get(p)` returns
`v`.  The unqualified claim, quantified over every document, fails: see the
counterexample, where an existing intermediate level is a primitive and
`set` throws. -/
theorem set_get_roundtrip (d d' : Document) (p : String) (v : JSValue)
    (h : d.set p v = some d') : d'.get p = v := by
  unfold Document.set at h
  rw [Option.map_eq_some'] at h
  obtain ⟨nd, hnd, rfl⟩ := h
  unfold setNestedValue at hnd
  show getNestedValue nd p = v
  unfold getNestedValue
  unfold splitPath
  rw [show splitOnDot p.data =
        (splitOnDot p.data).dropLast ++ [(splitOnDot p.data).getLastD ""] from
        splitPath_eq_dropLast_append p]
  exact setNested_roundtrip _ _ _ _ _ hnd

/-- Claim C2, counterexample to the claim as stated: on a document whose
`data` is `{a: 5}`, `set("a.b", 1)` does not store the value — the source's
`key in current` / `current[key] = value` steps throw a TypeError on the
primitive intermediate `5` — so no `set`-then-`get` round-trip happens at
all on this input. -/
theorem set_primitive_intermediate_ce :
    Document.set primDocFx "a.b" (.num 1) = none := rfl

/-- Witness for `set_get_roundtrip` at a concrete document and path with a
missing intermediate level. -/
theorem set_get_roundtrip_witness : setDocFx.get "a.b" = .num 7 :=
  set_get_roundtrip newDocFx setDocFx "a.b" (.num 7) rfl

/-- Claim C1: for every id and every server behaviour, `find(id)` (invoked
on a collection-bound class) returns `null` exactly when the server rejects
with status 404; on any other rejection it fails with an error whose
message is the find label followed by the structured server message when
truthy, else the transport error text; and when the server fulfils with a
well-formed record body it returns the single document the constructor
builds from that record. -/
theorem find_spec (c : S5Client) (id : JSValue) (srv : Server) :
    (Document.find (some c) id srv = .ok none ↔
      ∃ e, srv (findRequest c id) = .err e ∧
        isStatus404 (jsIndex e.response "status") = true)
    ∧ (∀ e, srv (findRequest c id) = .err e →
        isStatus404 (jsIndex e.response "status") = false →
        Document.find (some c) id srv =
          .error ("Find failed: " ++
            (if jsTruthy (serverMsgOf e) then jsTemplateStr (serverMsgOf e)
             else e.message)))
    ∧ (∀ body d0, srv (findRequest c id) = .ok body →
        mkDocFromResponse body (some c) = some d0 →
        Document.find (some c) id srv = .ok (some d0)) := by
  refine ⟨⟨fun h => ?_, fun h => ?_⟩, fun e he h404 => ?_, fun body d0 hb hd => ?_⟩
  · cases hr : srv (findRequest c id) with
    | ok body =>
        cases hm : mkDocFromResponse body (some c) <;>
          simp [Document.find, hr, hm] at h
    | err e =>
        by_cases h404 : isStatus404 (jsIndex e.response "status") = true
        · exact ⟨e, hr ▸ rfl, h404⟩
        · simp only [Document.find, hr, if_neg h404] at h
          exact absurd h (by simp)
  · obtain ⟨e, hr, h404⟩ := h
    simp [Document.find, hr, h404]
  · simp [Document.find, he, h404, failMsg]
  · simp [Document.find, hb, hd]

/-- Witness for `find_spec`: a server that rejects with 404 makes `find`
return `null`. -/
theorem find_spec_witness :
    Document.find (some clientFx) (.str "x") srv404Fx = .ok none :=
  (find_spec clientFx (.str "x") srv404Fx).1.mpr ⟨err404Fx, rfl, rfl⟩

/-- Claim C3 (amended): each string of a `q` list becomes one repeated `q`
parameter with that literal value, in order; each entry of an `order` list
becomes one repeated `order` parameter, order-preserving; a `filter`
mapping is serialized by `JSON.stringify` into a single `filter` parameter;
a supplied truthy (nonzero) `limit` or `page` is forwarded as a query
parameter; and with no options the query string is empty.  The original
claim's "forwarded verbatim for every supplied value" fails for the falsy
value 0, which the source's truthiness guard skips: see the
counterexample. -/
theorem whereParams_spec (qs os : List String) (l p : Int)
    (fs : List (String × JSValue)) (hl : l ≠ 0) (hp : p ≠ 0) :
    (whereParams { q := .many qs, order := .many os, limit := some l,
                   page := some p, filter := .obj fs } =
      qs.map (fun s => ("q", s)) ++ os.map (fun s => ("order", s))
        ++ [("limit", toString l), ("page", toString p),
            ("filter", jsonStringify (.obj fs))])
    ∧ whereParams emptyOptsFx = [] := by
  constructor
  · simp [whereParams, jsStringsTruthy, jsStringsToList, jsTruthy, hl, hp]
  · rfl

/-- Claim C3, counterexample to the claim as stated: a supplied `limit` of 0
is not forwarded — `if (options.limit)` is falsy on 0 — so the parameter
list is empty rather than containing a `limit` parameter. -/
theorem whereParams_limit_zero_ce :
    whereParams { q := .absent, order := .absent, limit := some 0,
                  page := none, filter := .jsUndefined } = [] := rfl

/-- Witness for `whereParams_spec` at concrete options. -/
theorem whereParams_spec_witness :
    whereParams { q := .many ["eq(status,\"active\")"], order := .many ["-name"],
                  limit := some 2, page := some 3, filter := .obj [] } =
      [("q", "eq(status,\"active\")"), ("order", "-name"),
       ("limit", toString (2 : Int)), ("page", toString (3 : Int)),
       ("filter", jsonStringify (.obj []))] := by
  have h := (whereParams_spec ["eq(status,\"active\")"] ["-name"] 2 3 []
    (by decide) (by decide)).1
  simpa using h

/-- Claim C4 (code bug): a document without an id fails with the local
precondition error and never consults the server (the result is the same
for every server behaviour).  But a document WITH an id also never issues a
request: the source calls `Document.find(this.id)` on the base class, whose
static `client` is undefined, so `client.axios` throws a TypeError inside
`find` and reload always fails with a "Find failed" error — for every
server — instead of refetching and overwriting local fields as the claim
(and the method's own doc comment) describes. -/
theorem reload_spec (d : Document) (srv : Server) :
    (jsTruthy d.id = false →
      Document.reload d srv = .error "Cannot reload document without ID")
    ∧ (jsTruthy d.id = true →
      Document.reload d srv = .error ("Find failed: " ++ engineTypeErrorMsg)) := by
  constructor <;> intro h <;> simp [Document.reload, h, Document.find]

/-- Witness for `reload_spec`: a persisted document reloaded against a
server that would happily answer still fails with the TypeError-derived
error. -/
theorem reload_spec_witness :
    Document.reload persistedDocFx srvRecordFx =
      .error ("Find failed: " ++ engineTypeErrorMsg) :=
  (reload_spec persistedDocFx srvRecordFx).2 rfl

/-- Claim C5: `save()` routes by the truthiness of `id` (the spec's §3
equates "present" with non-empty): with a falsy `id` it performs the
create path — a POST of `{data, ttl_at}` to the collection — and with a
truthy `id` the update path — a PUT of `{data, ttl_at}` to
`/{collection}/{id}`; in both cases a fulfilled response replaces every
local field with the document built from the returned record, which is the
result. -/
theorem save_spec (d : Document) (c : S5Client) (srv : Server)
    (hc : d.client = some c) :
    (jsTruthy d.id = false →
      Document.save d srv = Document.create d srv
      ∧ (createRequest d c).method = .POST
      ∧ (createRequest d c).path = "/" ++ c.collection
      ∧ (createRequest d c).body =
          some (.obj [("data", d.data), ("ttl_at", d.ttl_at)])
      ∧ ∀ body nd, srv (createRequest d c) = .ok body →
          mkDocFromResponse body (some c) = some nd →
          Document.save d srv = .ok nd)
    ∧ (jsTruthy d.id = true →
      Document.save d srv = Document.update d JSValue.jsNull srv
      ∧ (updateRequest d c).method = .PUT
      ∧ (updateRequest d c).path = "/" ++ c.collection ++ "/" ++ jsTemplateStr d.id
      ∧ (updateRequest d c).body =
          some (.obj [("data", d.data), ("ttl_at", d.ttl_at)])
      ∧ ∀ body nd, srv (updateRequest d c) = .ok body →
          mkDocFromResponse body (some c) = some nd →
          Document.save d srv = .ok nd) := by
  constructor <;> intro h
  · refine ⟨by simp [Document.save, h], rfl, rfl, rfl, fun body nd hb hnd => ?_⟩
    simp [Document.save, h, Document.create, hc, hb, hnd]
  · have h1 : Document.save d srv = Document.update d JSValue.jsNull srv := by
      simp [Document.save, h]
    refine ⟨h1, rfl, rfl, rfl, fun body nd hb hnd => ?_⟩
    rw [h1]
    show (match d.client with
          | none => Except.error ("Update failed: " ++ engineTypeErrorMsg)
          | some c =>
              match srv (updateRequest d c) with
              | .ok body =>
                  match mkDocFromResponse body (some c) with
                  | some nd => Except.ok nd
                  | none => Except.error ("Update failed: " ++ engineTypeErrorMsg)
              | .err e => Except.error (failMsg "Update failed: " e)) = Except.ok nd
    simp [hc, hb, hnd]

/-- Witness for `save_spec`: saving an unpersisted document against a
server that returns a record yields the document built from that record. -/
theorem save_spec_witness :
    Document.save newDocFx srvRecordFx = .ok (documentOfVal recordFx (some clientFx)) :=
  (((save_spec newDocFx clientFx srvRecordFx rfl).1 rfl).2.2.2.2)
    (.obj [("data", recordFx)]) (documentOfVal recordFx (some clientFx)) rfl rfl

/-- Claim C6: `count(options)` calls `where` with `limit` forced to 1 and
returns the length of the returned document array — so whenever the server
honours the forced limit (returns at most one record), the result is at
most 1 and never a true total; `first(options)` calls `where` with `limit`
forced to 1 and returns the first document, or `null` on an empty result
set. -/
theorem count_first_spec (cls : Option S5Client) (opts : WhereOptions) (srv : Server) :
    Document.count cls opts srv =
      Except.map (fun r => r.documents.length)
        (Document.whereOp cls { opts with limit := some 1 } srv)
    ∧ Document.first cls opts srv =
      Except.map (fun r => r.documents.head?)
        (Document.whereOp cls { opts with limit := some 1 } srv)
    ∧ (∀ r, Document.whereOp cls { opts with limit := some 1 } srv = .ok r →
        r.documents.length ≤ 1 →
        Document.count cls opts srv = .ok r.documents.length
        ∧ r.documents.length ≤ 1) := by
  refine ⟨?_, ?_, fun r hr hle => ⟨?_, hle⟩⟩
  · cases h : Document.whereOp cls { opts with limit := some 1 } srv <;>
      simp [Document.count, h, Except.map]
  · cases h : Document.whereOp cls { opts with limit := some 1 } srv with
    | error e => simp [Document.first, h, Except.map]
    | ok r => cases hd : r.documents <;> simp [Document.first, h, hd, Except.map]
  · simp [Document.count, hr]

/-- Witness for `count_first_spec`: against a server returning a one-record
page, `count` is 1 (which satisfies the at-most-1 bound). -/
theorem count_first_spec_witness :
    Document.count (some clientFx) emptyOptsFx srvListFx = .ok whereResFx.documents.length
    ∧ whereResFx.documents.length ≤ 1 :=
  (count_first_spec (some clientFx) emptyOptsFx srvListFx).2.2 whereResFx rfl
    (by decide)

/-- Claim C7: `destroy()` issues a single DELETE to `/{collection}/{id}`,
returns `true` on a fulfilled (2xx) response, fails with the delete-labelled
operation error on any rejection (non-2xx or transport failure), and in
every case leaves the receiver's local fields unchanged (the second
component of the model is the receiver's state after the call). -/
theorem destroy_spec (d : Document) (c : S5Client) (srv : Server)
    (hc : d.client = some c) :
    (Document.destroy d srv).2 = d
    ∧ (deleteRequest d c).method = .DELETE
    ∧ (deleteRequest d c).path = "/" ++ c.collection ++ "/" ++ jsTemplateStr d.id
    ∧ (deleteRequest d c).body = none
    ∧ (∀ body, srv (deleteRequest d c) = .ok body →
        (Document.destroy d srv).1 = .ok true)
    ∧ (∀ e, srv (deleteRequest d c) = .err e →
        (Document.destroy d srv).1 =
          .error ("Delete failed: " ++
            (if jsTruthy (serverMsgOf e) then jsTemplateStr (serverMsgOf e)
             else e.message))) := by
  refine ⟨?_, rfl, rfl, rfl, fun body hb => ?_, fun e he => ?_⟩
  · cases hr : srv (deleteRequest d c) <;> simp [Document.destroy, hc, hr]
  · simp [Document.destroy, hc, hb]
  · simp [Document.destroy, hc, he, failMsg]

/-- Witness for `destroy_spec`: a fulfilled delete returns `true` and the
document is unchanged. -/
theorem destroy_spec_witness :
    (Document.destroy persistedDocFx srvEmptyFx).1 = .ok true
    ∧ (Document.destroy persistedDocFx srvEmptyFx).2 = persistedDocFx :=
  ⟨(destroy_spec persistedDocFx clientFx srvEmptyFx rfl).2.2.2.2.1 (.obj []) rfl,
   (destroy_spec persistedDocFx clientFx srvEmptyFx rfl).1⟩

/-- Claim C8: the public overload `update(data)` with a (necessarily
truthy) mapping argument first replaces the local data with the shallow
top-level merge `{...this.data, ...data}` — the argument's keys winning —
and only then performs the ordinary update round trip, whose PUT body
carries exactly that merged data; a fulfilled response then replaces every
field with the document built from the returned record. -/
theorem update_merge_spec (d : Document) (fs : List (String × JSValue))
    (srv : Server) (c : S5Client) (hc : d.client = some c) :
    Document.update d (.obj fs) srv =
      Document.update { d with data := shallowMerge d.data (.obj fs) }
        JSValue.jsNull srv
    ∧ (updateRequest { d with data := shallowMerge d.data (.obj fs) } c).body =
        some (.obj [("data", shallowMerge d.data (.obj fs)), ("ttl_at", d.ttl_at)])
    ∧ (∀ body nd,
        srv (updateRequest { d with data := shallowMerge d.data (.obj fs) } c) = .ok body →
        mkDocFromResponse body (some c) = some nd →
        Document.update d (.obj fs) srv = .ok nd) := by
  refine ⟨rfl, rfl, fun body nd hb hnd => ?_⟩
  show (match d.client with
        | none => Except.error ("Update failed: " ++ engineTypeErrorMsg)
        | some c =>
           match srv (updateRequest { d with data := shallowMerge d.data (.obj fs) } c) with
           | .ok body =>
               (match mkDocFromResponse body (some c) with
                | some nd => Except.ok nd
                | none => Except.error ("Update failed: " ++ engineTypeErrorMsg))
           | .err e => Except.error (failMsg "Update failed: " e)) = Except.ok nd
  rw [hc] at hb
  simp [hc, hb, hnd]

/-- Witness for `update_merge_spec`: the explicit-data update equals the
merge-then-plain-update composition at concrete inputs. -/
theorem update_merge_spec_witness :
    Document.update persistedDocFx (.obj [("x", .num 1)]) srvRecordFx =
      Document.update
        { persistedDocFx with
            data := shallowMerge persistedDocFx.data (.obj [("x", .num 1)]) }
        JSValue.jsNull srvRecordFx :=
  (update_merge_spec persistedDocFx [("x", .num 1)] srvRecordFx clientFx rfl).1

/-- Claim C9: constructing the client context with a present (non-empty)
apiKey and collection name succeeds, and the constructed HTTP issuer carries
the bearer-token and JSON content-type headers, which every request builder
attaches; omitting the apiKey (or supplying the falsy empty string), or
omitting the collection name, fails immediately with the corresponding
configuration error. -/
theorem client_ctor_spec (k coll : String) (b : Option String)
    (hk : k ≠ "") (hcoll : coll ≠ "") :
    (∃ c, mkS5Client ⟨b, some k, some coll⟩ = .ok c
       ∧ c.apiKey = k ∧ c.collection = coll
       ∧ c.headers = [("Authorization", "Bearer " ++ k),
                      ("Content-Type", "application/json")]
       ∧ (∀ id, (findRequest c id).headers = c.headers)
       ∧ (∀ opts, (whereRequest c opts).headers = c.headers)
       ∧ (∀ d, (createRequest d c).headers = c.headers
            ∧ (updateRequest d c).headers = c.headers
            ∧ (deleteRequest d c).headers = c.headers))
    ∧ (∀ b' coll', mkS5Client ⟨b', none, coll'⟩ = .error "API key is required")
    ∧ (∀ b' coll', mkS5Client ⟨b', some "", coll'⟩ = .error "API key is required")
    ∧ (∀ b', mkS5Client ⟨b', some k, none⟩ = .error "Collection name is required") := by
  have hce : mkS5Client ⟨b, some k, some coll⟩ =
      .ok { baseURL := resolveBaseURL b, apiKey := k, collection := coll,
            headers := [("Authorization", "Bearer " ++ k),
                        ("Content-Type", "application/json")] } := by
    simp [mkS5Client, hk, hcoll]
  exact ⟨⟨_, hce, rfl, rfl, rfl, fun _ => rfl, fun _ => rfl,
          fun _ => ⟨rfl, rfl, rfl⟩⟩,
         fun _ _ => rfl, fun _ _ => rfl,
         fun _ => by simp [mkS5Client, hk]⟩

/-- Witness for `client_ctor_spec`: a fully supplied configuration yields a
client whose issuer carries exactly the two headers. -/
theorem client_ctor_spec_witness :
    (mkS5Client ⟨some "http://localhost:3000/api/v1", some "k", some "users"⟩).map
        S5Client.headers =
      .ok [("Authorization", "Bearer k"), ("Content-Type", "application/json")] := by
  obtain ⟨c, hok, _, _, hh, _⟩ :=
    (client_ctor_spec "k" "users" (some "http://localhost:3000/api/v1")
      (by decide) (by decide)).1
  rw [hok]
  simpa [Except.map] using hh

/-- Claim C10 (amended): the constructor's payload extraction is governed by
the truthiness of the input's `data` property, not by mere key presence:
with a truthy `data` value the document's `data` is that nested value and
the metadata fields come from the input's top level; otherwise — including
a present-but-falsy `data` value such as 0, see the counterexample — the
entire input object itself becomes the `data` mapping (the same reference
in the source; value equality here); and `baseURL` defaults to
"https://s5.host/api/v1" when omitted from the client configuration. -/
theorem document_ctor_spec (fs : List (String × JSValue)) (cl : Option S5Client)
    (k coll : String) (hk : k ≠ "") (hcoll : coll ≠ "") :
    documentCtor (.obj fs) cl =
      some { data := if jsTruthy (jsIndex (.obj fs) "data")
                     then jsIndex (.obj fs) "data" else .obj fs,
             client := cl,
             id := jsIndex (.obj fs) "id",
             collection := jsIndex (.obj fs) "collection",
             version := jsIndex (.obj fs) "version",
             created_at := jsIndex (.obj fs) "created_at",
             updated_at := jsIndex (.obj fs) "updated_at",
             ttl_at := jsIndex (.obj fs) "ttl_at" }
    ∧ (∃ c, mkS5Client ⟨none, some k, some coll⟩ = .ok c
        ∧ c.baseURL = "https://s5.host/api/v1") := by
  refine ⟨rfl, ⟨{ baseURL := defaultBaseURL, apiKey := k, collection := coll,
                  headers := [("Authorization", "Bearer " ++ k),
                              ("Content-Type", "application/json")] }, ?_, rfl⟩⟩
  simp [mkS5Client, resolveBaseURL, hk, hcoll]

/-- Claim C10, counterexample to the claim as stated: on the input
`{data: 0, id: "x"}` — which has a `data` key — the constructor makes the
whole input the document's `data` (the falsy `0` loses the `||`), not the
nested value `0` the claim prescribes. -/
theorem document_ctor_data_key_ce :
    (documentCtor (.obj [("data", .num 0), ("id", .str "x")]) none).map Document.data
      = some (.obj [("data", .num 0), ("id", .str "x")])
    ∧ JSValue.obj [("data", .num 0), ("id", .str "x")] ≠ JSValue.num 0 :=
  ⟨rfl, fun h => JSValue.noConfusion h⟩

/-- Witness for `document_ctor_spec` at a concrete input without a `data`
key. -/
theorem document_ctor_spec_witness :
    documentCtor (.obj [("id", .str "9")]) none =
      some { data := .obj [("id", .str "9")], client := none,
             id := .str "9", collection := .jsUndefined, version := .jsUndefined,
             created_at := .jsUndefined, updated_at := .jsUndefined, ttl_at := .jsUndefined } :=
  (document_ctor_spec [("id", .str "9")] none "k" "users"
    (by decide) (by decide)).1
